import Mathlib

/-! Vulkan bootstrap application: instance initialisation and teardown.

A shallow embedding of `src/src/Application.cpp`.  The program talks to two
external libraries (GLFW and the Vulkan loader); their answers are collected in
a `Platform` value and every call the program makes is recorded, in program
order, in a list of `Event`s.  C strings (`const char*`, `char[256]`) are the
text before the terminating NUL and are modelled by `String`.  A thrown
`std::runtime_error` is `Result.throw what`.  The three compile-time switches
of the source (`validationLayers`, `enableValidationLayers`, `__APPLE__`) are
the fields of `Config`.
-/

namespace Vulkan

set_option linter.unusedVariables false

/-! ## Constants of the Vulkan and GLFW headers used by the source -/

/-- Status code type of the graphics backend (`VkResult`, a C enum). -/
abbrev VkResult := Int

/-- Value of `VK_SUCCESS` in the Vulkan headers. -/
def VK_SUCCESS : VkResult := 0

/-- Value of `VK_ERROR_EXTENSION_NOT_PRESENT` in the Vulkan headers. -/
def VK_ERROR_EXTENSION_NOT_PRESENT : VkResult := -7

/-- Boolean type of the Vulkan API (`VkBool32`, a `uint32_t`). -/
abbrev VkBool32 := Nat

/-- Value of `VK_FALSE` in the Vulkan headers. -/
def VK_FALSE : VkBool32 := 0

/-- Value of `VK_EXT_DEBUG_UTILS_EXTENSION_NAME` in the Vulkan headers. -/
def VK_EXT_DEBUG_UTILS_EXTENSION_NAME : String := "VK_EXT_debug_utils"

/-- Value of `VK_KHR_PORTABILITY_ENUMERATION_EXTENSION_NAME` in the Vulkan headers. -/
def VK_KHR_PORTABILITY_ENUMERATION_EXTENSION_NAME : String := "VK_KHR_portability_enumeration"

/-- Value of `VK_INSTANCE_CREATE_ENUMERATE_PORTABILITY_BIT_KHR` in the Vulkan headers. -/
def VK_INSTANCE_CREATE_ENUMERATE_PORTABILITY_BIT_KHR : Nat := 0x00000001

/-- Value of `VK_STRUCTURE_TYPE_APPLICATION_INFO`. -/
def VK_STRUCTURE_TYPE_APPLICATION_INFO : Nat := 0

/-- Value of `VK_STRUCTURE_TYPE_INSTANCE_CREATE_INFO`. -/
def VK_STRUCTURE_TYPE_INSTANCE_CREATE_INFO : Nat := 1

/-- Value of `VK_STRUCTURE_TYPE_DEBUG_UTILS_MESSENGER_CREATE_INFO_EXT`. -/
def VK_STRUCTURE_TYPE_DEBUG_UTILS_MESSENGER_CREATE_INFO_EXT : Nat := 1000128004

/-- Value of `VK_DEBUG_UTILS_MESSAGE_SEVERITY_WARNING_BIT_EXT`. -/
def VK_DEBUG_UTILS_MESSAGE_SEVERITY_WARNING_BIT_EXT : Nat := 0x00000100

/-- Value of `VK_DEBUG_UTILS_MESSAGE_SEVERITY_ERROR_BIT_EXT`. -/
def VK_DEBUG_UTILS_MESSAGE_SEVERITY_ERROR_BIT_EXT : Nat := 0x00001000

/-- Value of `VK_DEBUG_UTILS_MESSAGE_TYPE_GENERAL_BIT_EXT`. -/
def VK_DEBUG_UTILS_MESSAGE_TYPE_GENERAL_BIT_EXT : Nat := 0x00000001

/-- Value of `VK_DEBUG_UTILS_MESSAGE_TYPE_VALIDATION_BIT_EXT`. -/
def VK_DEBUG_UTILS_MESSAGE_TYPE_VALIDATION_BIT_EXT : Nat := 0x00000002

/-- Value of `VK_DEBUG_UTILS_MESSAGE_TYPE_PERFORMANCE_BIT_EXT`. -/
def VK_DEBUG_UTILS_MESSAGE_TYPE_PERFORMANCE_BIT_EXT : Nat := 0x00000004

/-- The header macro `VK_MAKE_VERSION(major, minor, patch)`, a `uint32_t`. -/
def VK_MAKE_VERSION (major minor patch : Nat) : Nat :=
  ((major <<< 22) ||| (minor <<< 12) ||| patch) % 2 ^ 32

/-- Value of `VK_API_VERSION_1_0`. -/
def VK_API_VERSION_1_0 : Nat := VK_MAKE_VERSION 1 0 0

/-- Value of `GLFW_CLIENT_API`. -/
def GLFW_CLIENT_API : Nat := 0x00022001

/-- Value of `GLFW_NO_API`. -/
def GLFW_NO_API : Nat := 0

/-- Value of `GLFW_RESIZABLE`. -/
def GLFW_RESIZABLE : Nat := 0x00020003

/-- Value of `GLFW_FALSE`. -/
def GLFW_FALSE : Nat := 0

/-- Value of `EXIT_SUCCESS`. -/
def EXIT_SUCCESS : Int := 0

/-- Value of `EXIT_FAILURE`. -/
def EXIT_FAILURE : Int := 1

/-- The constant `WIDTH` of the source. -/
def WIDTH : Nat := 800

/-- The constant `HEIGHT` of the source. -/
def HEIGHT : Nat := 600

/-! ## Data model -/

/-- Opaque handles handed out by the libraries (`GLFWwindow*`, `VkInstance`,
`VkDebugUtilsMessengerEXT`); `0` is the null handle. -/
abbrev Handle := Nat

/-- The compile-time configuration of the source: the global `validationLayers`,
the global `enableValidationLayers` and the preprocessor symbol `__APPLE__`. -/
structure Config where
  validationLayers : List String
  enableValidationLayers : Bool
  apple : Bool
  deriving DecidableEq, Repr

/-- The configuration written in the source, for a given value of `__APPLE__`. -/
def sourceConfig (apple : Bool) : Config :=
  { validationLayers := ["VK_LAYER_KHRONOS_validation"]
    enableValidationLayers := true
    apple := apple }

/-- The struct `VkLayerProperties` of the Vulkan headers. -/
structure VkLayerProperties where
  layerName : String
  specVersion : Nat
  implementationVersion : Nat
  description : String
  deriving DecidableEq, Repr

/-- The struct `VkApplicationInfo`, with the fields the source sets. -/
structure VkApplicationInfo where
  sType : Nat
  pApplicationName : String
  applicationVersion : Nat
  pEngineName : String
  engineVersion : Nat
  apiVersion : Nat
  deriving DecidableEq, Repr

/-- The functions of the source, as values: used for the callback pointer stored
in a messenger create-info and for the call events of a trace. -/
inductive Fn where
  | CreateDebugUtilsMessengerEXT
  | DestroyDebugUtilsMessengerEXT
  | run
  | initWindow
  | initVulkan
  | mainLoop
  | cleanup
  | checkValidationLayerSupport
  | getRequiredExtensions
  | createInstance
  | setupDebugMessenger
  | debugCallback
  | populateDebugMessengerCreateInfo
  | main
  deriving DecidableEq, Repr

/-- The struct `VkDebugUtilsMessengerCreateInfoEXT`, with the fields the source sets. -/
structure VkDebugUtilsMessengerCreateInfoEXT where
  sType : Nat
  messageSeverity : Nat
  messageType : Nat
  pfnUserCallback : Fn
  deriving DecidableEq, Repr

/-- The struct `VkInstanceCreateInfo`.  `pNext` and `ppEnabledLayerNames` are
`none` for a null pointer. -/
structure VkInstanceCreateInfo where
  sType : Nat
  pApplicationInfo : VkApplicationInfo
  enabledLayerCount : Nat
  ppEnabledLayerNames : Option (List String)
  pNext : Option VkDebugUtilsMessengerCreateInfoEXT
  enabledExtensionCount : Nat
  ppEnabledExtensionNames : List String
  flags : Nat
  deriving DecidableEq, Repr

/-- The struct `VkDebugUtilsMessengerCallbackDataEXT`, with the field the source reads. -/
structure VkDebugUtilsMessengerCallbackDataEXT where
  pMessage : String
  deriving DecidableEq, Repr

/-- A function pointer returned by `vkGetInstanceProcAddr`, abstracted by what a
call through it does: it returns `status` and, for a creation entry point,
writes `handle` to its output parameter. -/
structure PFN_vkVoidFunction where
  status : VkResult
  handle : Handle
  deriving DecidableEq, Repr

/-- The answers of the two external libraries during one run. -/
structure Platform where
  /-- the handle returned by `glfwCreateWindow` -/
  glfwCreateWindow : Handle
  /-- the answer of the k-th call of `glfwWindowShouldClose` -/
  glfwWindowShouldClose : Nat → Bool
  /-- the names returned by `glfwGetRequiredInstanceExtensions` -/
  glfwGetRequiredInstanceExtensions : List String
  /-- the layers reported by `vkEnumerateInstanceLayerProperties` -/
  vkEnumerateInstanceLayerProperties : List VkLayerProperties
  /-- the status returned by `vkCreateInstance` for a request, and the handle it writes -/
  vkCreateInstance : VkInstanceCreateInfo → VkResult × Handle
  /-- the result of `vkGetInstanceProcAddr`, `none` for `nullptr` -/
  vkGetInstanceProcAddr : Handle → String → Option PFN_vkVoidFunction

/-- The data members of `class Application`. -/
structure Application where
  window : Handle
  instance_ : Handle
  debugMessenger : Handle
  deriving DecidableEq, Repr

/-- One observable step of a run: entering a function of the source, a call of
a library function (with the arguments the claims speak about), a call through
a resolved extension entry point, or text written to `std::cerr`. -/
inductive Event where
  | enter (f : Fn)
  | glfwInit
  | glfwWindowHint (hint value : Nat)
  | glfwCreateWindow (width height : Nat) (title : String)
  | glfwWindowShouldClose (window : Handle)
  | glfwPollEvents
  | glfwDestroyWindow (window : Handle)
  | glfwTerminate
  | glfwGetRequiredInstanceExtensions
  | vkEnumerateInstanceLayerProperties
  | vkCreateInstance (createInfo : VkInstanceCreateInfo)
  | vkDestroyInstance (instance_ : Handle)
  | vkGetInstanceProcAddr (instance_ : Handle) (name : String)
  | vkCreateDebugUtilsMessengerEXT (instance_ : Handle)
      (createInfo : VkDebugUtilsMessengerCreateInfoEXT)
  | vkDestroyDebugUtilsMessengerEXT (instance_ : Handle) (debugMessenger : Handle)
  | cerr (text : String)
  deriving DecidableEq, Repr

/-- Outcome of a function that may throw `std::runtime_error(what)`. -/
inductive Result (α : Type) where
  | ok (value : α)
  | throw (what : String)
  deriving DecidableEq, Repr

/-! ## The functions of `Application.cpp` -/

/-- The C library function `strcmp` on the characters before the terminator:
negative, zero or positive as the first string is less than, equal to or
greater than the second. -/
def strcmpChars : List Char → List Char → Int
  | [], [] => 0
  | [], _ :: _ => -1
  | _ :: _, [] => 1
  | a :: as, b :: bs =>
    if a = b then strcmpChars as bs else if a.toNat < b.toNat then -1 else 1

/-- The call `strcmp(s, t)`. -/
def strcmp (s t : String) : Int := strcmpChars s.data t.data

/-- The inner `for` loop of `checkValidationLayerSupport`: the value of
`layerFound` after scanning `availableLayers`, leaving at the first match. -/
def layerFound (layerName : String) : List VkLayerProperties → Bool
  | [] => false
  | layerProperties :: rest =>
    if strcmp layerName layerProperties.layerName = 0 then true
    else layerFound layerName rest

/-- The outer `for` loop of `checkValidationLayerSupport` over `validationLayers`,
returning `false` at the first layer that was not found. -/
def checkLayers (availableLayers : List VkLayerProperties) : List String → Bool
  | [] => true
  | layerName :: rest =>
    if !(layerFound layerName availableLayers) then false
    else checkLayers availableLayers rest

/-- The method `Application::checkValidationLayerSupport`: two calls of
`vkEnumerateInstanceLayerProperties` (count, then data) and the two loops. -/
def checkValidationLayerSupport (cfg : Config) (p : Platform) : List Event × Bool :=
  ([Event.enter Fn.checkValidationLayerSupport,
    Event.vkEnumerateInstanceLayerProperties,
    Event.vkEnumerateInstanceLayerProperties],
   checkLayers p.vkEnumerateInstanceLayerProperties cfg.validationLayers)

/-- The method `Application::getRequiredExtensions`: the names reported by
`glfwGetRequiredInstanceExtensions`, then one `push_back` under
`enableValidationLayers` and one under `#if __APPLE__`. -/
def getRequiredExtensions (cfg : Config) (p : Platform) : List Event × List String :=
  let extensions := p.glfwGetRequiredInstanceExtensions
  let extensions :=
    if cfg.enableValidationLayers then extensions ++ [VK_EXT_DEBUG_UTILS_EXTENSION_NAME]
    else extensions
  let extensions :=
    if cfg.apple then extensions ++ [VK_KHR_PORTABILITY_ENUMERATION_EXTENSION_NAME]
    else extensions
  ([Event.enter Fn.getRequiredExtensions, Event.glfwGetRequiredInstanceExtensions], extensions)

/-- The method `Application::populateDebugMessengerCreateInfo`: the value it
assigns to its reference parameter. -/
def populateDebugMessengerCreateInfo : List Event × VkDebugUtilsMessengerCreateInfoEXT :=
  ([Event.enter Fn.populateDebugMessengerCreateInfo],
   { sType := VK_STRUCTURE_TYPE_DEBUG_UTILS_MESSENGER_CREATE_INFO_EXT
     messageSeverity :=
       VK_DEBUG_UTILS_MESSAGE_SEVERITY_WARNING_BIT_EXT |||
       VK_DEBUG_UTILS_MESSAGE_SEVERITY_ERROR_BIT_EXT
     messageType :=
       VK_DEBUG_UTILS_MESSAGE_TYPE_GENERAL_BIT_EXT |||
       VK_DEBUG_UTILS_MESSAGE_TYPE_VALIDATION_BIT_EXT |||
       VK_DEBUG_UTILS_MESSAGE_TYPE_PERFORMANCE_BIT_EXT
     pfnUserCallback := Fn.debugCallback })

/-- The local `appInfo` of `createInstance`. -/
def appInfo : VkApplicationInfo :=
  { sType := VK_STRUCTURE_TYPE_APPLICATION_INFO
    pApplicationName := "Vulkan"
    applicationVersion := VK_MAKE_VERSION 1 0 0
    pEngineName := "Pulsar"
    engineVersion := VK_MAKE_VERSION 1 0 0
    apiVersion := VK_API_VERSION_1_0 }

/-- The local `createInfo` of `createInstance`, built from the configuration,
the negotiated `extensions` and the populated `debugCreateInfo`. -/
def instanceCreateInfo (cfg : Config) (extensions : List String)
    (debugCreateInfo : VkDebugUtilsMessengerCreateInfoEXT) : VkInstanceCreateInfo :=
  { sType := VK_STRUCTURE_TYPE_INSTANCE_CREATE_INFO
    pApplicationInfo := appInfo
    enabledLayerCount :=
      if cfg.enableValidationLayers then cfg.validationLayers.length % 2 ^ 32 else 0
    ppEnabledLayerNames :=
      if cfg.enableValidationLayers then some cfg.validationLayers else none
    pNext := if cfg.enableValidationLayers then some debugCreateInfo else none
    enabledExtensionCount := extensions.length % 2 ^ 32
    ppEnabledExtensionNames := extensions
    flags := VK_INSTANCE_CREATE_ENUMERATE_PORTABILITY_BIT_KHR }

/-- The method `Application::createInstance`.  The layer check is evaluated
only when `enableValidationLayers` holds (short-circuit `&&`); the first
`throw` ends the function. -/
def createInstance (cfg : Config) (p : Platform) (app : Application) :
    List Event × Result Application :=
  let check : List Event × Bool :=
    if cfg.enableValidationLayers then
      let c := checkValidationLayerSupport cfg p
      (c.1, !c.2)
    else ([], false)
  if check.2 then
    (Event.enter Fn.createInstance :: check.1,
     Result.throw "Requested validation layers unavailable.")
  else
    let extensions := getRequiredExtensions cfg p
    let debugCreateInfo := populateDebugMessengerCreateInfo
    let createInfo := instanceCreateInfo cfg extensions.2 debugCreateInfo.2
    let created := p.vkCreateInstance createInfo
    let trace := Event.enter Fn.createInstance :: check.1 ++ extensions.1 ++ debugCreateInfo.1
      ++ [Event.vkCreateInstance createInfo]
    if created.1 ≠ VK_SUCCESS then
      (trace, Result.throw "Failed to create instance.")
    else
      (trace, Result.ok { app with instance_ := created.2 })

/-- The free function `CreateDebugUtilsMessengerEXT`: the status it returns and
the value of `*pDebugMessenger` afterwards. -/
def CreateDebugUtilsMessengerEXT (p : Platform) (instance_ : Handle)
    (pCreateInfo : VkDebugUtilsMessengerCreateInfoEXT) (debugMessenger : Handle) :
    List Event × VkResult × Handle :=
  match p.vkGetInstanceProcAddr instance_ "vkCreateDebugUtilsMessengerEXT" with
  | some func =>
    ([Event.enter Fn.CreateDebugUtilsMessengerEXT,
      Event.vkGetInstanceProcAddr instance_ "vkCreateDebugUtilsMessengerEXT",
      Event.vkCreateDebugUtilsMessengerEXT instance_ pCreateInfo],
     func.status, func.handle)
  | none =>
    ([Event.enter Fn.CreateDebugUtilsMessengerEXT,
      Event.vkGetInstanceProcAddr instance_ "vkCreateDebugUtilsMessengerEXT"],
     VK_ERROR_EXTENSION_NOT_PRESENT, debugMessenger)

/-- The free function `DestroyDebugUtilsMessengerEXT`. -/
def DestroyDebugUtilsMessengerEXT (p : Platform) (instance_ : Handle)
    (debugMessenger : Handle) : List Event :=
  match p.vkGetInstanceProcAddr instance_ "vkDestroyDebugUtilsMessengerEXT" with
  | some _ =>
    [Event.enter Fn.DestroyDebugUtilsMessengerEXT,
     Event.vkGetInstanceProcAddr instance_ "vkDestroyDebugUtilsMessengerEXT",
     Event.vkDestroyDebugUtilsMessengerEXT instance_ debugMessenger]
  | none =>
    [Event.enter Fn.DestroyDebugUtilsMessengerEXT,
     Event.vkGetInstanceProcAddr instance_ "vkDestroyDebugUtilsMessengerEXT"]

/-- The method `Application::setupDebugMessenger`. -/
def setupDebugMessenger (cfg : Config) (p : Platform) (app : Application) :
    List Event × Result Application :=
  if !cfg.enableValidationLayers then ([Event.enter Fn.setupDebugMessenger], Result.ok app)
  else
    let createInfo := populateDebugMessengerCreateInfo
    let created := CreateDebugUtilsMessengerEXT p app.instance_ createInfo.2 app.debugMessenger
    let trace := Event.enter Fn.setupDebugMessenger :: createInfo.1 ++ created.1
    if created.2.1 ≠ VK_SUCCESS then
      (trace, Result.throw "Failed to set up debug messenger.")
    else
      (trace, Result.ok { app with debugMessenger := created.2.2 })

/-- The static method `Application::debugCallback`: one line written to
`std::cerr` (`std::endl` is the newline) and the returned `VkBool32`. -/
def debugCallback (messageSeverity : Nat) (messageType : Nat)
    (pCallbackData : VkDebugUtilsMessengerCallbackDataEXT) (pUserData : Handle) :
    List Event × VkBool32 :=
  ([Event.enter Fn.debugCallback,
    Event.cerr ("Validation Layer:" ++ pCallbackData.pMessage ++ "\n")],
   VK_FALSE)

/-- The method `Application::initWindow`. -/
def initWindow (p : Platform) (app : Application) : List Event × Application :=
  ([Event.enter Fn.initWindow,
    Event.glfwInit,
    Event.glfwWindowHint GLFW_CLIENT_API GLFW_NO_API,
    Event.glfwWindowHint GLFW_RESIZABLE GLFW_FALSE,
    Event.glfwCreateWindow WIDTH HEIGHT "Vulkan"],
   { app with window := p.glfwCreateWindow })

/-- The method `Application::initVulkan`: `setupDebugMessenger` runs only when
`createInstance` returned without throwing. -/
def initVulkan (cfg : Config) (p : Platform) (app : Application) :
    List Event × Result Application :=
  match createInstance cfg p app with
  | (t1, Result.throw what) => (Event.enter Fn.initVulkan :: t1, Result.throw what)
  | (t1, Result.ok app1) =>
    match setupDebugMessenger cfg p app1 with
    | (t2, r) => (Event.enter Fn.initVulkan :: t1 ++ t2, r)

/-- The `while` loop of `Application::mainLoop`, from the poll number `k` on:
`none` when `fuel` polls did not see the close signal. -/
def mainLoopFrom (p : Platform) (window : Handle) : Nat → Nat → Option (List Event)
  | 0, _ => none
  | fuel + 1, k =>
    if p.glfwWindowShouldClose k then some [Event.glfwWindowShouldClose window]
    else
      match mainLoopFrom p window fuel (k + 1) with
      | none => none
      | some rest => some (Event.glfwWindowShouldClose window :: Event.glfwPollEvents :: rest)

/-- The method `Application::mainLoop`. -/
def mainLoop (p : Platform) (app : Application) (fuel : Nat) : Option (List Event) :=
  match mainLoopFrom p app.window fuel 0 with
  | none => none
  | some t => some (Event.enter Fn.mainLoop :: t)

/-- The method `Application::cleanup`. -/
def cleanup (cfg : Config) (p : Platform) (app : Application) : List Event :=
  let messenger : List Event :=
    if cfg.enableValidationLayers then
      DestroyDebugUtilsMessengerEXT p app.instance_ app.debugMessenger
    else []
  Event.enter Fn.cleanup :: messenger ++
    [Event.vkDestroyInstance app.instance_,
     Event.glfwDestroyWindow app.window,
     Event.glfwTerminate]

/-- The method `Application::run`: `initWindow`, `initVulkan`, `mainLoop`,
`cleanup`, where an exception of `initVulkan` leaves the function at once.
`none` when the event loop did not end within `fuel` polls. -/
def run (cfg : Config) (p : Platform) (app : Application) (fuel : Nat) :
    Option (List Event × Result Application) :=
  let w := initWindow p app
  match initVulkan cfg p w.2 with
  | (t1, Result.throw what) => some (Event.enter Fn.run :: w.1 ++ t1, Result.throw what)
  | (t1, Result.ok app1) =>
    match mainLoop p app1 fuel with
    | none => none
    | some t2 =>
      some (Event.enter Fn.run :: w.1 ++ t1 ++ t2 ++ cleanup cfg p app1, Result.ok app1)

/-- The function `main` of `Application.cpp`, started on an `Application`
object whose members hold the (indeterminate) values `app`: the trace of the
whole process and its exit code. -/
def main (cfg : Config) (p : Platform) (app : Application) (fuel : Nat) :
    Option (List Event × Int) :=
  match run cfg p app fuel with
  | none => none
  | some (t, Result.ok _) => some (Event.enter Fn.main :: t, EXIT_SUCCESS)
  | some (t, Result.throw what) =>
    some (Event.enter Fn.main :: t ++ [Event.cerr (what ++ "\n")], EXIT_FAILURE)

/-- Whether an event is one of the teardown calls of `cleanup`: the messenger
destruction (the wrapper or the call through the resolved entry point), the
instance destruction, the window destruction, the release of GLFW. -/
def Event.isTeardown : Event → Bool
  | Event.enter Fn.DestroyDebugUtilsMessengerEXT => true
  | Event.vkDestroyDebugUtilsMessengerEXT _ _ => true
  | Event.vkDestroyInstance _ => true
  | Event.glfwDestroyWindow _ => true
  | Event.glfwTerminate => true
  | _ => false

/-! ## Auxiliary definitions used in the statements -/

/-- The request `createInstance` passes to `vkCreateInstance`: its local
`createInfo` for the extensions and the debug create-info it computed. -/
def createInstanceRequest (cfg : Config) (p : Platform) : VkInstanceCreateInfo :=
  instanceCreateInfo cfg (getRequiredExtensions cfg p).2 populateDebugMessengerCreateInfo.2

/-- The layer-check part of the trace of `createInstance`. -/
def layerCheckTrace (cfg : Config) : List Event :=
  if cfg.enableValidationLayers then
    [Event.enter Fn.checkValidationLayerSupport,
     Event.vkEnumerateInstanceLayerProperties, Event.vkEnumerateInstanceLayerProperties]
  else []

/-- Whether `createInstance` stops at its layer check. -/
def layersRefused (cfg : Config) (p : Platform) : Bool :=
  cfg.enableValidationLayers &&
    !(checkLayers p.vkEnumerateInstanceLayerProperties cfg.validationLayers)

/-- The calls of `createInstance` after a passed layer check. -/
def requestTrace (cfg : Config) (p : Platform) : List Event :=
  [Event.enter Fn.getRequiredExtensions, Event.glfwGetRequiredInstanceExtensions,
   Event.enter Fn.populateDebugMessengerCreateInfo,
   Event.vkCreateInstance (createInstanceRequest cfg p)]

/-! ## Example platforms -/

/-- A layer record with the given name. -/
def layerNamed (name : String) : VkLayerProperties :=
  { layerName := name, specVersion := 1, implementationVersion := 1, description := "" }

/-- A platform with the Khronos validation layer installed, the debug-utils
entry points resolvable, instance creation succeeding, and a window that is
closed at the third poll. -/
def goodPlatform : Platform :=
  { glfwCreateWindow := 11
    glfwWindowShouldClose := fun k => decide (2 ≤ k)
    glfwGetRequiredInstanceExtensions := ["VK_KHR_surface", "VK_KHR_xcb_surface"]
    vkEnumerateInstanceLayerProperties :=
      [layerNamed "VK_LAYER_MESA_overlay", layerNamed "VK_LAYER_KHRONOS_validation"]
    vkCreateInstance := fun _ => (VK_SUCCESS, 22)
    vkGetInstanceProcAddr := fun _ name =>
      if name = "vkCreateDebugUtilsMessengerEXT" then some ⟨VK_SUCCESS, 33⟩
      else if name = "vkDestroyDebugUtilsMessengerEXT" then some ⟨VK_SUCCESS, 0⟩
      else none }

/-- The members of a freshly declared `Application` object in the examples. -/
def app0 : Application := { window := 0, instance_ := 0, debugMessenger := 0 }

/-- A platform on which no validation layer is installed. -/
def bareLayerPlatform : Platform :=
  { goodPlatform with
    vkEnumerateInstanceLayerProperties := [layerNamed "VK_LAYER_MESA_overlay"] }

/-- A platform like `goodPlatform` whose `vkCreateInstance` returns the status `c`. -/
def rejectingPlatform (c : VkResult) : Platform :=
  { goodPlatform with vkCreateInstance := fun _ => (c, 0) }

/-- A platform like `goodPlatform` whose windowing library itself asks for the
portability-enumeration extension. -/
def portabilityWindowPlatform : Platform :=
  { goodPlatform with
    glfwGetRequiredInstanceExtensions :=
      ["VK_KHR_surface", "VK_KHR_portability_enumeration"] }

/-- A platform like `goodPlatform` on which no extension entry point resolves. -/
def unresolvedPlatform : Platform :=
  { goodPlatform with vkGetInstanceProcAddr := fun _ _ => none }

/-- A platform like `goodPlatform` whose resolved messenger-creation entry
point returns the status `c`. -/
def messengerStatusPlatform (c : VkResult) : Platform :=
  { goodPlatform with
    vkGetInstanceProcAddr := fun _ name =>
      if name = "vkCreateDebugUtilsMessengerEXT" then some ⟨c, 0⟩
      else if name = "vkDestroyDebugUtilsMessengerEXT" then some ⟨VK_SUCCESS, 0⟩
      else none }

/-- The members of an `Application` object after a successful `createInstance`
in the examples. -/
def app1 : Application := { window := 11, instance_ := 22, debugMessenger := 0 }

/-- The trace of `run` for the source configuration on `goodPlatform`. -/
def goodRunTrace : List Event :=
  [Event.enter Fn.run,
   Event.enter Fn.initWindow, Event.glfwInit,
   Event.glfwWindowHint GLFW_CLIENT_API GLFW_NO_API,
   Event.glfwWindowHint GLFW_RESIZABLE GLFW_FALSE,
   Event.glfwCreateWindow WIDTH HEIGHT "Vulkan",
   Event.enter Fn.initVulkan, Event.enter Fn.createInstance,
   Event.enter Fn.checkValidationLayerSupport,
   Event.vkEnumerateInstanceLayerProperties, Event.vkEnumerateInstanceLayerProperties,
   Event.enter Fn.getRequiredExtensions, Event.glfwGetRequiredInstanceExtensions,
   Event.enter Fn.populateDebugMessengerCreateInfo,
   Event.vkCreateInstance (createInstanceRequest (sourceConfig false) goodPlatform),
   Event.enter Fn.setupDebugMessenger, Event.enter Fn.populateDebugMessengerCreateInfo,
   Event.enter Fn.CreateDebugUtilsMessengerEXT,
   Event.vkGetInstanceProcAddr 22 "vkCreateDebugUtilsMessengerEXT",
   Event.vkCreateDebugUtilsMessengerEXT 22 populateDebugMessengerCreateInfo.2,
   Event.enter Fn.mainLoop,
   Event.glfwWindowShouldClose 11, Event.glfwPollEvents,
   Event.glfwWindowShouldClose 11, Event.glfwPollEvents,
   Event.glfwWindowShouldClose 11,
   Event.enter Fn.cleanup, Event.enter Fn.DestroyDebugUtilsMessengerEXT,
   Event.vkGetInstanceProcAddr 22 "vkDestroyDebugUtilsMessengerEXT",
   Event.vkDestroyDebugUtilsMessengerEXT 22 33,
   Event.vkDestroyInstance 22, Event.glfwDestroyWindow 11, Event.glfwTerminate]

/-- The trace of `main` for the source configuration on `rejectingPlatform (-3)`. -/
def rejectedRunTrace : List Event :=
  [Event.enter Fn.main, Event.enter Fn.run,
   Event.enter Fn.initWindow, Event.glfwInit,
   Event.glfwWindowHint GLFW_CLIENT_API GLFW_NO_API,
   Event.glfwWindowHint GLFW_RESIZABLE GLFW_FALSE,
   Event.glfwCreateWindow WIDTH HEIGHT "Vulkan",
   Event.enter Fn.initVulkan, Event.enter Fn.createInstance,
   Event.enter Fn.checkValidationLayerSupport,
   Event.vkEnumerateInstanceLayerProperties, Event.vkEnumerateInstanceLayerProperties,
   Event.enter Fn.getRequiredExtensions, Event.glfwGetRequiredInstanceExtensions,
   Event.enter Fn.populateDebugMessengerCreateInfo,
   Event.vkCreateInstance (createInstanceRequest (sourceConfig false) (rejectingPlatform (-3))),
   Event.cerr "Failed to create instance.\n"]

/-! ## Layer support check -/

/-- The comparison of two character lists is zero exactly for equal lists. -/
theorem strcmpChars_eq_zero (a b : List Char) : strcmpChars a b = 0 ↔ a = b := by
  induction a generalizing b with
  | nil => cases b <;> simp [strcmpChars]
  | cons x xs ih =>
    cases b with
    | nil => simp [strcmpChars]
    | cons y ys =>
      by_cases hxy : x = y
      · simp [strcmpChars, hxy, ih]
      · by_cases hlt : x.toNat < y.toNat <;> simp [strcmpChars, hxy, hlt]

/-- The call `strcmp(s, t)` returns zero exactly when the two strings are equal. -/
theorem strcmp_eq_zero (s t : String) : strcmp s t = 0 ↔ s = t := by
  unfold strcmp
  rw [strcmpChars_eq_zero]
  constructor
  · intro h
    exact String.ext h
  · intro h
    rw [h]

/-- The inner loop finds a layer exactly when some available layer has that name. -/
theorem layerFound_iff (layerName : String) (availableLayers : List VkLayerProperties) :
    layerFound layerName availableLayers = true ↔
      ∃ lp ∈ availableLayers, lp.layerName = layerName := by
  induction availableLayers with
  | nil => simp [layerFound]
  | cons lp rest ih =>
    by_cases h : layerName = lp.layerName
    · simp [layerFound, strcmp_eq_zero, h]
    · have h2 : ¬ lp.layerName = layerName := fun e => h e.symm
      simp [layerFound, strcmp_eq_zero, h, h2, ih]

/-- The outer loop returns `true` exactly when every requested name is available. -/
theorem checkLayers_iff (availableLayers : List VkLayerProperties) (requested : List String) :
    checkLayers availableLayers requested = true ↔
      ∀ name ∈ requested, ∃ lp ∈ availableLayers, lp.layerName = name := by
  induction requested with
  | nil => simp [checkLayers]
  | cons name rest ih =>
    by_cases h : layerFound name availableLayers = true
    · have h2 := (layerFound_iff name availableLayers).mp h
      simp [checkLayers, h, ih, h2]
    · have h2 : ¬ ∃ lp ∈ availableLayers, lp.layerName = name :=
        fun e => h ((layerFound_iff name availableLayers).mpr e)
      simp [checkLayers, h, h2]

/-- C1: `checkValidationLayerSupport` returns `true` exactly when every name in
`validationLayers` is the `layerName` of some layer reported by the platform;
it is `true` for an empty request and `false` for a non-empty request when the
platform reports no layer. -/
theorem checkValidationLayerSupport_iff_all_present (cfg : Config) (p : Platform) :
    ((checkValidationLayerSupport cfg p).2 = true ↔
      ∀ name ∈ cfg.validationLayers,
        ∃ lp ∈ p.vkEnumerateInstanceLayerProperties, lp.layerName = name) ∧
    (checkValidationLayerSupport { cfg with validationLayers := [] } p).2 = true ∧
    (∀ (name : String) (rest : List String),
      (checkValidationLayerSupport { cfg with validationLayers := name :: rest }
        { p with vkEnumerateInstanceLayerProperties := [] }).2 = false) := by
  refine ⟨?_, ?_, ?_⟩
  · exact checkLayers_iff _ _
  · simp [checkValidationLayerSupport, checkLayers]
  · intro name rest
    simp [checkValidationLayerSupport, checkLayers, layerFound]

/-! ## Extension negotiation -/

/-- C3: `getRequiredExtensions` returns the windowing names in order, then the
debug-utils name exactly when diagnostics are enabled, then the
portability-enumeration name exactly when the platform flag is set; two calls
with the same windowing names and the same two flags return the same list. -/
theorem getRequiredExtensions_eq (cfg : Config) (p : Platform) :
    (getRequiredExtensions cfg p).2 =
      p.glfwGetRequiredInstanceExtensions
        ++ (if cfg.enableValidationLayers then [VK_EXT_DEBUG_UTILS_EXTENSION_NAME] else [])
        ++ (if cfg.apple then [VK_KHR_PORTABILITY_ENUMERATION_EXTENSION_NAME] else []) ∧
    (∀ (cfg2 : Config) (p2 : Platform),
      p2.glfwGetRequiredInstanceExtensions = p.glfwGetRequiredInstanceExtensions →
      cfg2.enableValidationLayers = cfg.enableValidationLayers →
      cfg2.apple = cfg.apple →
      (getRequiredExtensions cfg2 p2).2 = (getRequiredExtensions cfg p).2) := by
  constructor
  · cases hv : cfg.enableValidationLayers <;> cases ha : cfg.apple <;>
      simp [getRequiredExtensions, hv, ha]
  · intro cfg2 p2 hw hv ha
    simp [getRequiredExtensions, hw, hv, ha]

/-! ## Instance creation -/

/-- C2: when diagnostics are enabled and some requested layer is not reported
by the platform, `createInstance` throws "Requested validation layers
unavailable." after the layer enumeration only: `vkCreateInstance` is not
called and no `Application` state with an instance handle is returned. -/
theorem createInstance_layers_unavailable (cfg : Config) (p : Platform) (app : Application)
    (henabled : cfg.enableValidationLayers = true)
    (hmissing : ∃ name ∈ cfg.validationLayers,
      ∀ lp ∈ p.vkEnumerateInstanceLayerProperties, lp.layerName ≠ name) :
    (createInstance cfg p app).2 = Result.throw "Requested validation layers unavailable." ∧
    (createInstance cfg p app).1 =
      [Event.enter Fn.createInstance, Event.enter Fn.checkValidationLayerSupport,
       Event.vkEnumerateInstanceLayerProperties, Event.vkEnumerateInstanceLayerProperties] ∧
    (∀ ci, Event.vkCreateInstance ci ∉ (createInstance cfg p app).1) := by
  have hcheck : checkLayers p.vkEnumerateInstanceLayerProperties cfg.validationLayers = false := by
    cases hc : checkLayers p.vkEnumerateInstanceLayerProperties cfg.validationLayers with
    | false => rfl
    | true =>
      exfalso
      obtain ⟨name, hname, hno⟩ := hmissing
      obtain ⟨lp, hlp, heq⟩ := (checkLayers_iff _ _).mp hc name hname
      exact hno lp hlp heq
  have htrace : (createInstance cfg p app).1 =
      [Event.enter Fn.createInstance, Event.enter Fn.checkValidationLayerSupport,
       Event.vkEnumerateInstanceLayerProperties, Event.vkEnumerateInstanceLayerProperties] := by
    simp [createInstance, checkValidationLayerSupport, henabled, hcheck]
  refine ⟨?_, htrace, ?_⟩
  · simp [createInstance, checkValidationLayerSupport, henabled, hcheck]
  · intro ci
    rw [htrace]
    simp

/-- Witness for C2: the source configuration on a platform without the Khronos layer. -/
theorem createInstance_layers_unavailable_witness :
    (createInstance (sourceConfig false) bareLayerPlatform app0).2 =
      Result.throw "Requested validation layers unavailable." ∧
    (createInstance (sourceConfig false) bareLayerPlatform app0).1 =
      [Event.enter Fn.createInstance, Event.enter Fn.checkValidationLayerSupport,
       Event.vkEnumerateInstanceLayerProperties, Event.vkEnumerateInstanceLayerProperties] ∧
    (∀ ci, Event.vkCreateInstance ci ∉
      (createInstance (sourceConfig false) bareLayerPlatform app0).1) :=
  createInstance_layers_unavailable (sourceConfig false) bareLayerPlatform app0 rfl
    ⟨"VK_LAYER_KHRONOS_validation", by decide, by decide⟩

/-- The calls made by `getRequiredExtensions`. -/
theorem getRequiredExtensions_trace (cfg : Config) (p : Platform) :
    (getRequiredExtensions cfg p).1 =
      [Event.enter Fn.getRequiredExtensions, Event.glfwGetRequiredInstanceExtensions] := rfl

/-- The calls made by `populateDebugMessengerCreateInfo`. -/
theorem populateDebugMessengerCreateInfo_trace :
    populateDebugMessengerCreateInfo.1 = [Event.enter Fn.populateDebugMessengerCreateInfo] := rfl

/-- The trace of `createInstance`, branch by branch. -/
theorem createInstance_trace (cfg : Config) (p : Platform) (app : Application) :
    (createInstance cfg p app).1 =
      Event.enter Fn.createInstance :: layerCheckTrace cfg ++
        (if layersRefused cfg p then [] else requestTrace cfg p) := by
  cases hv : cfg.enableValidationLayers <;>
    cases hc : checkLayers p.vkEnumerateInstanceLayerProperties cfg.validationLayers <;>
    simp only [createInstance, checkValidationLayerSupport, layerCheckTrace, layersRefused,
      requestTrace, createInstanceRequest, hv, hc] <;>
    simp <;> split <;> simp [getRequiredExtensions_trace, populateDebugMessengerCreateInfo_trace]

/-- The result of `createInstance`, branch by branch. -/
theorem createInstance_result (cfg : Config) (p : Platform) (app : Application) :
    (createInstance cfg p app).2 =
      if layersRefused cfg p then Result.throw "Requested validation layers unavailable."
      else if (p.vkCreateInstance (createInstanceRequest cfg p)).1 = VK_SUCCESS then
        Result.ok { app with instance_ := (p.vkCreateInstance (createInstanceRequest cfg p)).2 }
      else Result.throw "Failed to create instance." := by
  cases hv : cfg.enableValidationLayers <;>
    cases hc : checkLayers p.vkEnumerateInstanceLayerProperties cfg.validationLayers <;>
    simp only [createInstance, checkValidationLayerSupport, layersRefused,
      createInstanceRequest, hv, hc] <;>
    simp <;> split <;> simp_all

/-- The extension list of the request is the result of `getRequiredExtensions`. -/
theorem createInstanceRequest_extensions (cfg : Config) (p : Platform) :
    (createInstanceRequest cfg p).ppEnabledExtensionNames = (getRequiredExtensions cfg p).2 := rfl

/-- The `flags` field of the request. -/
theorem createInstanceRequest_flags (cfg : Config) (p : Platform) :
    (createInstanceRequest cfg p).flags = VK_INSTANCE_CREATE_ENUMERATE_PORTABILITY_BIT_KHR := rfl

/-- Every `vkCreateInstance` call recorded by `createInstance` carries the
request `createInstanceRequest`. -/
theorem createInstance_request_eq (cfg : Config) (p : Platform) (app : Application)
    (ci : VkInstanceCreateInfo)
    (h : Event.vkCreateInstance ci ∈ (createInstance cfg p app).1) :
    ci = createInstanceRequest cfg p := by
  rw [createInstance_trace] at h
  cases hv : cfg.enableValidationLayers <;> cases hr : layersRefused cfg p <;>
    simp [layerCheckTrace, requestTrace, hv, hr] at h <;> exact h

/-- C4: with diagnostics disabled, `createInstance` neither enters
`checkValidationLayerSupport` nor enumerates layers; it issues exactly one
`vkCreateInstance` request, whose extension list is the result of
`getRequiredExtensions` and does not contain the debug-utils name unless the
windowing library's own list contains it. -/
theorem createInstance_diagnostics_disabled (cfg : Config) (p : Platform) (app : Application)
    (hdisabled : cfg.enableValidationLayers = false) :
    Event.enter Fn.checkValidationLayerSupport ∉ (createInstance cfg p app).1 ∧
    Event.vkEnumerateInstanceLayerProperties ∉ (createInstance cfg p app).1 ∧
    (createInstance cfg p app).1 =
      [Event.enter Fn.createInstance, Event.enter Fn.getRequiredExtensions,
       Event.glfwGetRequiredInstanceExtensions,
       Event.enter Fn.populateDebugMessengerCreateInfo,
       Event.vkCreateInstance (createInstanceRequest cfg p)] ∧
    (createInstanceRequest cfg p).ppEnabledExtensionNames = (getRequiredExtensions cfg p).2 ∧
    (VK_EXT_DEBUG_UTILS_EXTENSION_NAME ∉ p.glfwGetRequiredInstanceExtensions →
      VK_EXT_DEBUG_UTILS_EXTENSION_NAME ∉ (createInstanceRequest cfg p).ppEnabledExtensionNames) := by
  have htrace : (createInstance cfg p app).1 =
      [Event.enter Fn.createInstance, Event.enter Fn.getRequiredExtensions,
       Event.glfwGetRequiredInstanceExtensions,
       Event.enter Fn.populateDebugMessengerCreateInfo,
       Event.vkCreateInstance (createInstanceRequest cfg p)] := by
    rw [createInstance_trace]
    simp [layerCheckTrace, layersRefused, requestTrace, hdisabled]
  refine ⟨?_, ?_, htrace, rfl, ?_⟩
  · rw [htrace]; simp
  · rw [htrace]; simp
  · intro hw
    rw [createInstanceRequest_extensions]
    have hne : VK_EXT_DEBUG_UTILS_EXTENSION_NAME ≠ VK_KHR_PORTABILITY_ENUMERATION_EXTENSION_NAME := by
      decide
    cases ha : cfg.apple <;> simp [getRequiredExtensions, hdisabled, ha, hw, hne]

/-- Witness for C4: the source's layer list with diagnostics switched off. -/
theorem createInstance_diagnostics_disabled_witness :
    Event.enter Fn.checkValidationLayerSupport ∉
      (createInstance ⟨["VK_LAYER_KHRONOS_validation"], false, true⟩ goodPlatform app0).1 ∧
    Event.vkEnumerateInstanceLayerProperties ∉
      (createInstance ⟨["VK_LAYER_KHRONOS_validation"], false, true⟩ goodPlatform app0).1 ∧
    VK_EXT_DEBUG_UTILS_EXTENSION_NAME ∉
      (createInstanceRequest ⟨["VK_LAYER_KHRONOS_validation"], false, true⟩
        goodPlatform).ppEnabledExtensionNames :=
  have h := createInstance_diagnostics_disabled
    ⟨["VK_LAYER_KHRONOS_validation"], false, true⟩ goodPlatform app0 rfl
  ⟨h.1, h.2.1, h.2.2.2.2 (by decide)⟩

/-- C6 (as stated, refuted): the backend statuses `-1` and `-3` make
`createInstance` fail with one and the same error; the status is not part of it. -/
theorem createInstance_error_drops_status :
    ((rejectingPlatform (-1)).vkCreateInstance
        (createInstanceRequest (sourceConfig false) (rejectingPlatform (-1)))).1 = -1 ∧
    ((rejectingPlatform (-3)).vkCreateInstance
        (createInstanceRequest (sourceConfig false) (rejectingPlatform (-3)))).1 = -3 ∧
    (createInstance (sourceConfig false) (rejectingPlatform (-1)) app0).2 =
      Result.throw "Failed to create instance." ∧
    (createInstance (sourceConfig false) (rejectingPlatform (-3)) app0).2 =
      (createInstance (sourceConfig false) (rejectingPlatform (-1)) app0).2 := by
  decide

/-- C6 (amended): whenever the layer check lets `createInstance` reach the
backend and `vkCreateInstance` returns a status other than `VK_SUCCESS`,
`createInstance` throws the fixed error "Failed to create instance.", whatever
the status is. -/
theorem createInstance_backend_failure (cfg : Config) (p : Platform) (app : Application)
    (hreached : layersRefused cfg p = false)
    (hstatus : (p.vkCreateInstance (createInstanceRequest cfg p)).1 ≠ VK_SUCCESS) :
    (createInstance cfg p app).2 = Result.throw "Failed to create instance." ∧
    Event.vkCreateInstance (createInstanceRequest cfg p) ∈ (createInstance cfg p app).1 := by
  constructor
  · rw [createInstance_result]
    simp [hreached, hstatus]
  · rw [createInstance_trace]
    simp [hreached, requestTrace]

/-- Witness for C6 (amended): the backend answers `-3`. -/
theorem createInstance_backend_failure_witness :
    (createInstance (sourceConfig false) (rejectingPlatform (-3)) app0).2 =
      Result.throw "Failed to create instance." ∧
    Event.vkCreateInstance (createInstanceRequest (sourceConfig false) (rejectingPlatform (-3))) ∈
      (createInstance (sourceConfig false) (rejectingPlatform (-3)) app0).1 :=
  createInstance_backend_failure (sourceConfig false) (rejectingPlatform (-3)) app0
    (by decide) (by decide)

/-- C10 (as stated, refuted): with the platform flag off, a request can carry
the enumerate-portability bit and still list the portability-enumeration
extension, namely when the windowing library asks for it. -/
theorem createInstance_portability_name_present :
    (sourceConfig false).apple = false ∧
    Event.vkCreateInstance (createInstanceRequest (sourceConfig false) portabilityWindowPlatform) ∈
      (createInstance (sourceConfig false) portabilityWindowPlatform app0).1 ∧
    (createInstanceRequest (sourceConfig false) portabilityWindowPlatform).flags =
      VK_INSTANCE_CREATE_ENUMERATE_PORTABILITY_BIT_KHR ∧
    VK_KHR_PORTABILITY_ENUMERATION_EXTENSION_NAME ∈
      (createInstanceRequest (sourceConfig false)
        portabilityWindowPlatform).ppEnabledExtensionNames := by
  decide

/-- C10 (amended): every request `createInstance` passes to `vkCreateInstance`
has `flags` equal to the enumerate-portability bit, for both values of both
flags; with the platform flag off the request's extension list does not contain
the portability-enumeration name unless the windowing library's own list
contains it; and a request is issued whenever the layer check does not stop
`createInstance`. -/
theorem createInstance_flags_always_portability (cfg : Config) (p : Platform)
    (app : Application) :
    (∀ ci, Event.vkCreateInstance ci ∈ (createInstance cfg p app).1 →
      ci.flags = VK_INSTANCE_CREATE_ENUMERATE_PORTABILITY_BIT_KHR ∧
      (cfg.apple = false →
        VK_KHR_PORTABILITY_ENUMERATION_EXTENSION_NAME ∉ p.glfwGetRequiredInstanceExtensions →
        VK_KHR_PORTABILITY_ENUMERATION_EXTENSION_NAME ∉ ci.ppEnabledExtensionNames)) ∧
    (layersRefused cfg p = false →
      Event.vkCreateInstance (createInstanceRequest cfg p) ∈ (createInstance cfg p app).1) := by
  constructor
  · intro ci hci
    rw [createInstance_request_eq cfg p app ci hci]
    refine ⟨rfl, ?_⟩
    intro ha hw
    rw [createInstanceRequest_extensions]
    have hne : VK_KHR_PORTABILITY_ENUMERATION_EXTENSION_NAME ≠ VK_EXT_DEBUG_UTILS_EXTENSION_NAME := by
      decide
    cases hv : cfg.enableValidationLayers <;> simp [getRequiredExtensions, hv, ha, hw, hne]
  · intro hreached
    rw [createInstance_trace]
    simp [hreached, requestTrace]

/-- Witness for C10 (amended): the source configuration off the Apple platform,
on `goodPlatform`, whose windowing list has no portability name. -/
theorem createInstance_flags_always_portability_witness :
    (createInstanceRequest (sourceConfig false) goodPlatform).flags =
      VK_INSTANCE_CREATE_ENUMERATE_PORTABILITY_BIT_KHR ∧
    VK_KHR_PORTABILITY_ENUMERATION_EXTENSION_NAME ∉
      (createInstanceRequest (sourceConfig false) goodPlatform).ppEnabledExtensionNames ∧
    Event.vkCreateInstance (createInstanceRequest (sourceConfig false) goodPlatform) ∈
      (createInstance (sourceConfig false) goodPlatform app0).1 :=
  have h := createInstance_flags_always_portability (sourceConfig false) goodPlatform app0
  have hreq := h.1 (createInstanceRequest (sourceConfig false) goodPlatform) (h.2 (by decide))
  ⟨hreq.1, hreq.2 rfl (by decide), h.2 (by decide)⟩

/-! ## Debug messenger -/

/-- C9: for all arguments `debugCallback` writes one line to the error stream,
"Validation Layer:" followed by the payload's message text, and returns
`VK_FALSE`, which is `0`; the returned value is the same for any two argument
lists. -/
theorem debugCallback_writes_and_continues (messageSeverity messageType : Nat)
    (pCallbackData : VkDebugUtilsMessengerCallbackDataEXT) (pUserData : Handle) :
    (debugCallback messageSeverity messageType pCallbackData pUserData).1 =
      [Event.enter Fn.debugCallback,
       Event.cerr ("Validation Layer:" ++ pCallbackData.pMessage ++ "\n")] ∧
    (debugCallback messageSeverity messageType pCallbackData pUserData).2 = VK_FALSE ∧
    (debugCallback messageSeverity messageType pCallbackData pUserData).2 = 0 ∧
    (∀ (severity2 type2 : Nat) (data2 : VkDebugUtilsMessengerCallbackDataEXT) (user2 : Handle),
      (debugCallback severity2 type2 data2 user2).2 =
        (debugCallback messageSeverity messageType pCallbackData pUserData).2) :=
  ⟨rfl, rfl, rfl, fun _ _ _ _ => rfl⟩

/-- C7 (as stated, refuted): `setupDebugMessenger` reports one and the same
error when the creation entry point is not found and when it is found and the
backend answers `-1`. -/
theorem setupDebugMessenger_errors_coincide :
    unresolvedPlatform.vkGetInstanceProcAddr app1.instance_ "vkCreateDebugUtilsMessengerEXT" =
      none ∧
    (messengerStatusPlatform (-1)).vkGetInstanceProcAddr app1.instance_
      "vkCreateDebugUtilsMessengerEXT" = some ⟨-1, 0⟩ ∧
    (setupDebugMessenger (sourceConfig false) unresolvedPlatform app1).2 =
      Result.throw "Failed to set up debug messenger." ∧
    (setupDebugMessenger (sourceConfig false) (messengerStatusPlatform (-1)) app1).2 =
      (setupDebugMessenger (sourceConfig false) unresolvedPlatform app1).2 := by
  decide

/-- C7 (amended): when the lookup of the messenger-creation entry point returns
not-found, `CreateDebugUtilsMessengerEXT` returns `VK_ERROR_EXTENSION_NOT_PRESENT`
after the lookup alone (no call through an entry point), and
`setupDebugMessenger` with diagnostics enabled throws "Failed to set up debug
messenger."; it throws the same error when the entry point is found and returns
a status other than `VK_SUCCESS`; when the lookup succeeds
`CreateDebugUtilsMessengerEXT` returns exactly the status of the resolved
function. -/
theorem CreateDebugUtilsMessengerEXT_lookup (cfg : Config) (p : Platform) (app : Application)
    (pCreateInfo : VkDebugUtilsMessengerCreateInfoEXT) :
    (p.vkGetInstanceProcAddr app.instance_ "vkCreateDebugUtilsMessengerEXT" = none →
      (CreateDebugUtilsMessengerEXT p app.instance_ pCreateInfo app.debugMessenger).2.1 =
        VK_ERROR_EXTENSION_NOT_PRESENT ∧
      (CreateDebugUtilsMessengerEXT p app.instance_ pCreateInfo app.debugMessenger).1 =
        [Event.enter Fn.CreateDebugUtilsMessengerEXT,
         Event.vkGetInstanceProcAddr app.instance_ "vkCreateDebugUtilsMessengerEXT"] ∧
      (cfg.enableValidationLayers = true →
        (setupDebugMessenger cfg p app).2 = Result.throw "Failed to set up debug messenger." ∧
        ∀ i c, Event.vkCreateDebugUtilsMessengerEXT i c ∉ (setupDebugMessenger cfg p app).1)) ∧
    (∀ func, p.vkGetInstanceProcAddr app.instance_ "vkCreateDebugUtilsMessengerEXT" = some func →
      (CreateDebugUtilsMessengerEXT p app.instance_ pCreateInfo app.debugMessenger).2.1 =
        func.status ∧
      (cfg.enableValidationLayers = true → func.status ≠ VK_SUCCESS →
        (setupDebugMessenger cfg p app).2 =
          Result.throw "Failed to set up debug messenger.")) := by
  constructor
  · intro hnone
    refine ⟨?_, ?_, ?_⟩
    · simp [CreateDebugUtilsMessengerEXT, hnone]
    · simp [CreateDebugUtilsMessengerEXT, hnone]
    · intro hv
      constructor
      · simp [setupDebugMessenger, CreateDebugUtilsMessengerEXT, hnone, hv,
          VK_ERROR_EXTENSION_NOT_PRESENT, VK_SUCCESS]
      · intro i c
        simp [setupDebugMessenger, CreateDebugUtilsMessengerEXT, hnone, hv,
          VK_ERROR_EXTENSION_NOT_PRESENT, VK_SUCCESS, populateDebugMessengerCreateInfo_trace]
  · intro func hsome
    constructor
    · simp [CreateDebugUtilsMessengerEXT, hsome]
    · intro hv hstatus
      simp [setupDebugMessenger, CreateDebugUtilsMessengerEXT, hsome, hv, hstatus]

/-- Witness for C7 (amended): no entry point resolves on `unresolvedPlatform`;
on `messengerStatusPlatform (-1)` the resolved function returns `-1`. -/
theorem CreateDebugUtilsMessengerEXT_lookup_witness :
    (CreateDebugUtilsMessengerEXT unresolvedPlatform app1.instance_
      populateDebugMessengerCreateInfo.2 app1.debugMessenger).2.1 =
        VK_ERROR_EXTENSION_NOT_PRESENT ∧
    (setupDebugMessenger (sourceConfig false) unresolvedPlatform app1).2 =
      Result.throw "Failed to set up debug messenger." ∧
    (CreateDebugUtilsMessengerEXT (messengerStatusPlatform (-1)) app1.instance_
      populateDebugMessengerCreateInfo.2 app1.debugMessenger).2.1 = -1 ∧
    (setupDebugMessenger (sourceConfig false) (messengerStatusPlatform (-1)) app1).2 =
      Result.throw "Failed to set up debug messenger." :=
  have hnone := (CreateDebugUtilsMessengerEXT_lookup (sourceConfig false) unresolvedPlatform
    app1 populateDebugMessengerCreateInfo.2).1 rfl
  have hsome := (CreateDebugUtilsMessengerEXT_lookup (sourceConfig false)
    (messengerStatusPlatform (-1)) app1 populateDebugMessengerCreateInfo.2).2 ⟨-1, 0⟩ rfl
  ⟨hnone.1, (hnone.2.2 rfl).1, hsome.1, hsome.2 rfl (by decide)⟩

/-! ## Lifecycle -/

/-- No teardown call is made by `createInstance`. -/
theorem createInstance_no_teardown (cfg : Config) (p : Platform) (app : Application) :
    (createInstance cfg p app).1.filter Event.isTeardown = [] := by
  rw [createInstance_trace]
  cases hv : cfg.enableValidationLayers <;> cases hr : layersRefused cfg p <;>
    simp [layerCheckTrace, requestTrace, hv, Event.isTeardown]

/-- No teardown call is made by `setupDebugMessenger`. -/
theorem setupDebugMessenger_no_teardown (cfg : Config) (p : Platform) (app : Application) :
    (setupDebugMessenger cfg p app).1.filter Event.isTeardown = [] := by
  cases hv : cfg.enableValidationLayers
  · simp [setupDebugMessenger, hv, Event.isTeardown]
  · cases hl : p.vkGetInstanceProcAddr app.instance_ "vkCreateDebugUtilsMessengerEXT" with
    | none =>
      simp [setupDebugMessenger, CreateDebugUtilsMessengerEXT, hv, hl, Event.isTeardown,
        populateDebugMessengerCreateInfo_trace, VK_ERROR_EXTENSION_NOT_PRESENT, VK_SUCCESS]
    | some func =>
      by_cases hs : func.status = VK_SUCCESS <;>
        simp [setupDebugMessenger, CreateDebugUtilsMessengerEXT, hv, hl, hs, Event.isTeardown,
          populateDebugMessengerCreateInfo_trace]

/-- The member `window` is left unchanged by a successful `createInstance`. -/
theorem createInstance_ok_window (cfg : Config) (p : Platform) (app app2 : Application)
    (h : (createInstance cfg p app).2 = Result.ok app2) : app2.window = app.window := by
  rw [createInstance_result] at h
  split at h
  · simp at h
  · split at h
    · simp at h
      rw [← h]
    · simp at h

/-- The member `window` is left unchanged by a successful `setupDebugMessenger`. -/
theorem setupDebugMessenger_ok_window (cfg : Config) (p : Platform) (app app2 : Application)
    (h : (setupDebugMessenger cfg p app).2 = Result.ok app2) : app2.window = app.window := by
  unfold setupDebugMessenger at h
  split at h
  · simp at h
    rw [← h]
  · simp only at h
    split at h
    · simp at h
    · simp at h
      rw [← h]

/-- The trace and result of `initVulkan` in terms of its two steps. -/
theorem initVulkan_ok (cfg : Config) (p : Platform) (app app2 : Application) (t : List Event)
    (h : initVulkan cfg p app = (t, Result.ok app2)) :
    ∃ mid, (createInstance cfg p app).2 = Result.ok mid ∧
      (setupDebugMessenger cfg p mid).2 = Result.ok app2 ∧
      t = Event.enter Fn.initVulkan :: (createInstance cfg p app).1 ++
        (setupDebugMessenger cfg p mid).1 := by
  unfold initVulkan at h
  cases hc : createInstance cfg p app with
  | mk t1 r1 =>
    rw [hc] at h
    cases r1 with
    | throw what => simp at h
    | ok mid =>
      simp only at h
      cases hs : setupDebugMessenger cfg p mid with
      | mk t2 r2 =>
        rw [hs] at h
        simp only [Prod.mk.injEq] at h
        refine ⟨mid, rfl, ?_, ?_⟩
        · rw [hs]; exact h.2
        · rw [← h.1, hs]

/-- An exception of `createInstance` leaves `initVulkan` before `setupDebugMessenger`. -/
theorem initVulkan_throw (cfg : Config) (p : Platform) (app : Application) (what : String)
    (h : (createInstance cfg p app).2 = Result.throw what) :
    initVulkan cfg p app =
      (Event.enter Fn.initVulkan :: (createInstance cfg p app).1, Result.throw what) := by
  unfold initVulkan
  cases hc : createInstance cfg p app with
  | mk t1 r1 =>
    rw [hc] at h
    simp only at h
    subst h
    rfl

/-- No teardown call is made by the event loop. -/
theorem mainLoopFrom_no_teardown (p : Platform) (window : Handle) (fuel : Nat) :
    ∀ (k : Nat) (t : List Event), mainLoopFrom p window fuel k = some t →
      t.filter Event.isTeardown = [] := by
  induction fuel with
  | zero => intro k t h; simp [mainLoopFrom] at h
  | succ n ih =>
    intro k t h
    unfold mainLoopFrom at h
    split at h
    · simp at h
      subst h
      simp [Event.isTeardown]
    · cases hrest : mainLoopFrom p window n (k + 1) with
      | none => rw [hrest] at h; simp at h
      | some rest =>
        rw [hrest] at h
        simp at h
        subst h
        simp [Event.isTeardown, ih (k + 1) rest hrest]

/-- Enough fuel: when the close signal is raised at poll `k + d`, the loop
started at poll `k` ends within any `fuel` above `d`. -/
theorem mainLoopFrom_terminates (p : Platform) (window : Handle) (d : Nat) :
    ∀ (k fuel : Nat), p.glfwWindowShouldClose (k + d) = true → d < fuel →
      (mainLoopFrom p window fuel k).isSome = true := by
  induction d with
  | zero =>
    intro k fuel hclose hfuel
    cases fuel with
    | zero => omega
    | succ n =>
      simp at hclose
      simp [mainLoopFrom, hclose]
  | succ d ih =>
    intro k fuel hclose hfuel
    cases fuel with
    | zero => omega
    | succ n =>
      unfold mainLoopFrom
      split
      · rfl
      · have hstep : p.glfwWindowShouldClose (k + 1 + d) = true := by
          rw [← hclose]; congr 1; omega
        have hsome := ih (k + 1) n hstep (by omega)
        cases hrest : mainLoopFrom p window n (k + 1) with
        | none => rw [hrest] at hsome; simp at hsome
        | some rest => rfl

/-- The function `run` returns (with or without an exception) as soon as the
fuel exceeds the number of a poll at which the window reports the close signal. -/
theorem run_returns (cfg : Config) (p : Platform) (app : Application) (n fuel : Nat)
    (hclose : p.glfwWindowShouldClose n = true) (hfuel : n < fuel) :
    (run cfg p app fuel).isSome = true := by
  cases hi : initVulkan cfg p (initWindow p app).2 with
  | mk t1 r1 =>
    cases r1 with
    | throw what => simp [run, hi]
    | ok mid =>
      have hloop := mainLoopFrom_terminates p mid.window n 0 fuel (by simpa using hclose) hfuel
      cases hm : mainLoopFrom p mid.window fuel 0 with
      | none => rw [hm] at hloop; simp at hloop
      | some t2 => simp [run, hi, mainLoop, hm]

/-- The calls made by `initWindow`. -/
theorem initWindow_trace (p : Platform) (app : Application) :
    (initWindow p app).1 =
      [Event.enter Fn.initWindow, Event.glfwInit,
       Event.glfwWindowHint GLFW_CLIENT_API GLFW_NO_API,
       Event.glfwWindowHint GLFW_RESIZABLE GLFW_FALSE,
       Event.glfwCreateWindow WIDTH HEIGHT "Vulkan"] := rfl

/-- The teardown events of `cleanup`, in order. -/
theorem cleanup_teardown (cfg : Config) (p : Platform) (app : Application) :
    (cleanup cfg p app).filter Event.isTeardown =
      (if cfg.enableValidationLayers then
        Event.enter Fn.DestroyDebugUtilsMessengerEXT ::
          (if (p.vkGetInstanceProcAddr app.instance_ "vkDestroyDebugUtilsMessengerEXT").isSome
            then [Event.vkDestroyDebugUtilsMessengerEXT app.instance_ app.debugMessenger]
            else [])
       else []) ++
      [Event.vkDestroyInstance app.instance_, Event.glfwDestroyWindow app.window,
       Event.glfwTerminate] := by
  cases hv : cfg.enableValidationLayers
  · simp [cleanup, hv, Event.isTeardown]
  · cases hl : p.vkGetInstanceProcAddr app.instance_ "vkDestroyDebugUtilsMessengerEXT" <;>
      simp [cleanup, DestroyDebugUtilsMessengerEXT, hv, hl, Event.isTeardown]

/-- C5: in every run that returns normally, the trace is a part without any
teardown call followed by the trace of `cleanup`, and the teardown calls of the
whole run are, in this order and once each: the messenger destruction
`DestroyDebugUtilsMessengerEXT` (present exactly when diagnostics are enabled;
it calls the resolved destroy entry point when the lookup finds one), the
instance destruction, the destruction of the window created by `initWindow`,
and `glfwTerminate`. -/
theorem run_teardown_order (cfg : Config) (p : Platform) (app : Application) (fuel : Nat)
    (t : List Event) (final : Application)
    (hrun : run cfg p app fuel = some (t, Result.ok final)) :
    (∃ pre, t = pre ++ cleanup cfg p final ∧ pre.filter Event.isTeardown = []) ∧
    t.filter Event.isTeardown =
      (if cfg.enableValidationLayers then
        Event.enter Fn.DestroyDebugUtilsMessengerEXT ::
          (if (p.vkGetInstanceProcAddr final.instance_ "vkDestroyDebugUtilsMessengerEXT").isSome
            then [Event.vkDestroyDebugUtilsMessengerEXT final.instance_ final.debugMessenger]
            else [])
       else []) ++
      [Event.vkDestroyInstance final.instance_, Event.glfwDestroyWindow final.window,
       Event.glfwTerminate] ∧
    final.window = p.glfwCreateWindow := by
  cases hi : initVulkan cfg p (initWindow p app).2 with
  | mk t1 r1 =>
    cases r1 with
    | throw what => simp [run, hi] at hrun
    | ok mid =>
      cases hl : mainLoopFrom p mid.window fuel 0 with
      | none => simp [run, hi, mainLoop, hl] at hrun
      | some t2 =>
        simp only [run, hi, mainLoop, hl, Option.some.injEq, Prod.mk.injEq,
          Result.ok.injEq] at hrun
        obtain ⟨ht, hfinal⟩ := hrun
        subst hfinal
        obtain ⟨c, hc, hs, ht1⟩ := initVulkan_ok cfg p _ _ _ hi
        have hloop := mainLoopFrom_no_teardown p mid.window fuel 0 t2 hl
        have hpre : (Event.enter Fn.run :: (initWindow p app).1 ++ t1 ++
            Event.enter Fn.mainLoop :: t2).filter Event.isTeardown = [] := by
          rw [ht1]
          simp [initWindow_trace, Event.isTeardown, createInstance_no_teardown,
            setupDebugMessenger_no_teardown, hloop]
        refine ⟨⟨_, ht.symm, hpre⟩, ?_, ?_⟩
        · rw [← ht, List.filter_append, hpre, cleanup_teardown]
          simp
        · rw [setupDebugMessenger_ok_window cfg p c mid hs,
            createInstance_ok_window cfg p _ c hc]
          rfl

/-- Witness for C5: the source configuration on `goodPlatform`, where the
window is closed at the third poll. -/
theorem run_teardown_order_witness :
    goodRunTrace.filter Event.isTeardown =
      [Event.enter Fn.DestroyDebugUtilsMessengerEXT,
       Event.vkDestroyDebugUtilsMessengerEXT 22 33,
       Event.vkDestroyInstance 22, Event.glfwDestroyWindow 11, Event.glfwTerminate] ∧
    run (sourceConfig false) goodPlatform app0 5 =
      some (goodRunTrace, Result.ok ⟨11, 22, 33⟩) :=
  ⟨(run_teardown_order (sourceConfig false) goodPlatform app0 5 goodRunTrace ⟨11, 22, 33⟩
      (by decide)).2.1,
   by decide⟩

/-- C8 (as stated, refuted): when the backend rejects the instance, the process
ends with the failure exit code after writing the message, and its trace has
the window creation but no window destruction and no `glfwTerminate`. -/
theorem main_failure_leaves_window :
    main (sourceConfig false) (rejectingPlatform (-3)) app0 5 =
      some (rejectedRunTrace, EXIT_FAILURE) ∧
    Event.glfwCreateWindow WIDTH HEIGHT "Vulkan" ∈ rejectedRunTrace ∧
    Event.glfwDestroyWindow (rejectingPlatform (-3)).glfwCreateWindow ∉ rejectedRunTrace ∧
    Event.glfwTerminate ∉ rejectedRunTrace ∧
    rejectedRunTrace.filter Event.isTeardown = [] := by
  decide

/-- C8 (amended): whenever `createInstance` throws, for every fuel `main`
returns the failure exit code with the trace: window creation, the calls of
`createInstance`, then the error message and a newline on the error stream.
No messenger registration and no event-loop call happens, and the failure
handler issues no teardown call. -/
theorem main_instance_creation_failure (cfg : Config) (p : Platform) (app : Application)
    (fuel : Nat) (what : String)
    (hfail : (createInstance cfg p (initWindow p app).2).2 = Result.throw what) :
    ∃ t, main cfg p app fuel = some (t, EXIT_FAILURE) ∧
      t = Event.enter Fn.main :: Event.enter Fn.run :: (initWindow p app).1 ++
        Event.enter Fn.initVulkan :: (createInstance cfg p (initWindow p app).2).1 ++
        [Event.cerr (what ++ "\n")] ∧
      Event.enter Fn.setupDebugMessenger ∉ t ∧
      Event.enter Fn.CreateDebugUtilsMessengerEXT ∉ t ∧
      (∀ i c, Event.vkCreateDebugUtilsMessengerEXT i c ∉ t) ∧
      Event.enter Fn.mainLoop ∉ t ∧
      (∀ w, Event.glfwWindowShouldClose w ∉ t) ∧
      Event.glfwPollEvents ∉ t ∧
      t.filter Event.isTeardown = [] := by
  have hmain : main cfg p app fuel =
      some (Event.enter Fn.main :: Event.enter Fn.run :: (initWindow p app).1 ++
        Event.enter Fn.initVulkan :: (createInstance cfg p (initWindow p app).2).1 ++
        [Event.cerr (what ++ "\n")], EXIT_FAILURE) := by
    simp [main, run, initVulkan_throw cfg p _ what hfail]
  refine ⟨_, hmain, rfl, ?_⟩
  rw [createInstance_trace, initWindow_trace]
  cases hv : cfg.enableValidationLayers <;> cases hr : layersRefused cfg p <;>
    simp [layerCheckTrace, requestTrace, hv, Event.isTeardown]

/-- Witness for C8 (amended): the backend answers `-3`. -/
theorem main_instance_creation_failure_witness :
    ∃ t, main (sourceConfig false) (rejectingPlatform (-3)) app0 5 = some (t, EXIT_FAILURE) ∧
      t = Event.enter Fn.main :: Event.enter Fn.run ::
        (initWindow (rejectingPlatform (-3)) app0).1 ++
        Event.enter Fn.initVulkan ::
          (createInstance (sourceConfig false) (rejectingPlatform (-3))
            (initWindow (rejectingPlatform (-3)) app0).2).1 ++
        [Event.cerr ("Failed to create instance." ++ "\n")] ∧
      Event.enter Fn.setupDebugMessenger ∉ t ∧
      Event.enter Fn.CreateDebugUtilsMessengerEXT ∉ t ∧
      (∀ i c, Event.vkCreateDebugUtilsMessengerEXT i c ∉ t) ∧
      Event.enter Fn.mainLoop ∉ t ∧
      (∀ w, Event.glfwWindowShouldClose w ∉ t) ∧
      Event.glfwPollEvents ∉ t ∧
      t.filter Event.isTeardown = [] :=
  main_instance_creation_failure (sourceConfig false) (rejectingPlatform (-3)) app0 5
    "Failed to create instance." (by decide)

end Vulkan
